import Mathlib

/-!
Shallow embedding of the snowcat CLI (a minimal Snowflake query client) and
proofs about its configuration validation, authenticator selection, key
loading, signal-driven cancellation, and CSV output phases.

The embedding follows the program's main function: flag values are modelled as
a structure whose defaults mirror the flag declarations, each fatal exit is an
explicit error value, and the external collaborators (PEM reader, SQL driver)
are oracle parameters.
-/

namespace Snowcat

/-- Raw flag values after argument parsing, one field per flag registered by
main. The default of each field mirrors the default of the corresponding flag
declaration. -/
structure Flags where
  snowflakeAccount : String := ""
  snowflakeHost : String := ""
  snowflakePort : Int := 443
  snowflakeProtocol : String := "https"
  snowflakeDatabase : String := ""
  snowflakeSchema : String := ""
  snowflakeUser : String := ""
  snowflakePassword : String := ""
  snowflakeRole : String := ""
  snowflakePrivateKeyFile : String := ""
  snowflakePrivateKeyPasscode : String := ""
  snowflakeAuthenticator : String := ""
  snowflakeMaxRetryCount : Int := 7
  deriving Repr, DecidableEq

/-- Number of authentication inputs that are set: main increments a counter
for each non-empty field among password, private key file and authenticator. -/
def authMethodCount (f : Flags) : Nat :=
  (if f.snowflakePassword ≠ "" then 1 else 0) +
  (if f.snowflakePrivateKeyFile ≠ "" then 1 else 0) +
  (if f.snowflakeAuthenticator ≠ "" then 1 else 0)

/-- List of missing required flags accumulated by main: account and user when
empty, and the authentication-method pseudo-flag when no method is set. -/
def missingFlags (f : Flags) : List String :=
  (if f.snowflakeAccount = "" then ["snowflake.account"] else []) ++
  (if f.snowflakeUser = "" then ["snowflake.user"] else []) ++
  (if authMethodCount f = 0 then
    ["authentication method (one of: snowflake.password, snowflake.private.key.file, or snowflake.authenticator)"]
   else [])

/-- Fatal configuration errors raised by the flag-checking block of main, in
the order the checks run: more than one authentication method, missing
required flags, then an unrecognized protocol. -/
inductive CheckError
  | multipleAuthMethods (passwordProvided privateKeyProvided authenticatorProvided : Bool)
  | missingRequiredFlags (flags : List String)
  | invalidProtocol (protocol : String)
  deriving Repr, DecidableEq

/-- Credential validation as main performs it: first the fatal exit for more
than one authentication method, then the fatal exit for missing required
flags, then the fatal exit for a protocol other than https or http. Returns
none when validation passes. -/
def checkFlags (f : Flags) : Option CheckError :=
  if authMethodCount f > 1 then
    some (.multipleAuthMethods (f.snowflakePassword ≠ "") (f.snowflakePrivateKeyFile ≠ "")
      (f.snowflakeAuthenticator ≠ ""))
  else if missingFlags f ≠ [] then
    some (.missingRequiredFlags (missingFlags f))
  else if f.snowflakeProtocol ≠ "https" ∧ f.snowflakeProtocol ≠ "http" then
    some (.invalidProtocol f.snowflakeProtocol)
  else
    none

/-- C1: credential validation fails (returns a configuration error, which main
turns into a non-zero fatal exit) exactly when the account is empty, the user
is empty, the number of authentication inputs set differs from one, or the
protocol is outside http and https; on every other configuration it
succeeds. -/
theorem checkFlags_isSome_iff (f : Flags) :
    (checkFlags f).isSome = true ↔
      (f.snowflakeAccount = "" ∨ f.snowflakeUser = "" ∨ authMethodCount f ≠ 1 ∨
        (f.snowflakeProtocol ≠ "http" ∧ f.snowflakeProtocol ≠ "https")) := by
  by_cases ha : f.snowflakeAccount = "" <;>
  by_cases hu : f.snowflakeUser = "" <;>
  by_cases hp : f.snowflakePassword = "" <;>
  by_cases hk : f.snowflakePrivateKeyFile = "" <;>
  by_cases hau : f.snowflakeAuthenticator = "" <;>
  by_cases hhs : f.snowflakeProtocol = "https" <;>
  by_cases hht : f.snowflakeProtocol = "http" <;>
  simp [checkFlags, missingFlags, authMethodCount, ha, hu, hp, hk, hau, hhs, hht]

/-- Authenticator types of the driver library that main assigns: password
login, key-pair JWT, and external browser. -/
inductive AuthType
  | snowflake
  | jwt
  | externalBrowser
  deriving Repr, DecidableEq

/-- Opaque handle standing for a decoded RSA private key value. -/
structure RsaPrivateKey where
  keyId : Nat
  deriving Repr, DecidableEq

/-- Result of a successful PEM read: either an RSA private key (the type main
asserts) or a key of some other type (on which the type assertion fails). -/
inductive PemKey
  | rsaKey (k : RsaPrivateKey)
  | otherKey
  deriving Repr, DecidableEq

/-- Driver connection configuration as main fills it in: the base fields come
from the flags, and the authenticator, password and private key fields start
unset and are assigned by the authenticator-selection branch. -/
structure SnowflakeConfig where
  account : String
  user : String
  database : String
  schema : String
  role : String
  host : String
  port : Int
  protocol : String
  maxRetryCount : Int
  authenticator : Option AuthType := none
  password : String := ""
  privateKey : Option RsaPrivateKey := none
  deriving Repr, DecidableEq

/-- Base connection configuration literal of main, before the
authenticator-selection branch runs. -/
def baseConfig (f : Flags) : SnowflakeConfig :=
  { account := f.snowflakeAccount
    user := f.snowflakeUser
    database := f.snowflakeDatabase
    schema := f.snowflakeSchema
    role := f.snowflakeRole
    host := f.snowflakeHost
    port := f.snowflakePort
    protocol := f.snowflakeProtocol
    maxRetryCount := f.snowflakeMaxRetryCount }

/-- Fatal errors of the private-key loading block: the PEM read or decrypt
failed, or the decoded key was not an RSA private key. -/
inductive KeyError
  | parseFailed (msg : String)
  | typeAssertionFailed
  deriving Repr, DecidableEq

/-- Private-key loading block of main, with the external pemutil reader passed
as an oracle taking the file path and the passcode. When no key file is set
the block is skipped and no key is produced. -/
def readPrivateKey (pemRead : String → String → Except String PemKey) (f : Flags) :
    Except KeyError (Option RsaPrivateKey) :=
  if f.snowflakePrivateKeyFile ≠ "" then
    match pemRead f.snowflakePrivateKeyFile f.snowflakePrivateKeyPasscode with
    | .error msg => .error (.parseFailed msg)
    | .ok (.rsaKey k) => .ok (some k)
    | .ok .otherKey => .error .typeAssertionFailed
  else
    .ok none

/-- Fatal error of the authenticator-selection branch: no branch matched, so
the authenticator value is invalid. -/
inductive AuthSelectError
  | invalidAuthenticator (authenticator : String)
  deriving Repr, DecidableEq

/-- Authenticator-selection branch of main: password sets the snowflake
authenticator and the password; otherwise a key file sets the JWT
authenticator and the private key; otherwise the literal externalbrowser sets
the external-browser authenticator; any other value is a fatal error. -/
def applyAuth (f : Flags) (rsaKey : Option RsaPrivateKey) (cfg : SnowflakeConfig) :
    Except AuthSelectError SnowflakeConfig :=
  if f.snowflakePassword ≠ "" then
    .ok { cfg with authenticator := some .snowflake, password := f.snowflakePassword }
  else if f.snowflakePrivateKeyFile ≠ "" then
    .ok { cfg with authenticator := some .jwt, privateKey := rsaKey }
  else if f.snowflakeAuthenticator = "externalbrowser" then
    .ok { cfg with authenticator := some .externalBrowser }
  else
    .error (.invalidAuthenticator f.snowflakeAuthenticator)

/-- Any fatal error of the setup phase of main, in program order: a
configuration-check error, a key-loading error, or an
authenticator-selection error. -/
inductive SetupError
  | configError (e : CheckError)
  | keyError (e : KeyError)
  | authError (e : AuthSelectError)
  deriving Repr, DecidableEq

/-- Observable side effects of the setup phase; the only one is reading the
private key file. -/
inductive Effect
  | readKeyFile (path : String) (passcode : String)
  deriving Repr, DecidableEq

/-- Setup phase of main in program order: flag checking, then the private-key
block (recording the file read it performs), then the base configuration
literal and the authenticator-selection branch. Produces the connection
configuration handed to the driver, or the first fatal error. -/
def setupConnection (pemRead : String → String → Except String PemKey) (f : Flags) :
    Except SetupError SnowflakeConfig × List Effect :=
  match checkFlags f with
  | some e => (.error (.configError e), [])
  | none =>
    let effects :=
      if f.snowflakePrivateKeyFile ≠ "" then
        [Effect.readKeyFile f.snowflakePrivateKeyFile f.snowflakePrivateKeyPasscode]
      else []
    match readPrivateKey pemRead f with
    | .error e => (.error (.keyError e), effects)
    | .ok rsaKey =>
      match applyAuth f rsaKey (baseConfig f) with
      | .error e => (.error (.authError e), effects)
      | .ok cfg => (.ok cfg, effects)

/-- Helper: a configuration that passes the flag checks has a non-empty
account and user, exactly one authentication input, and a recognized
protocol. -/
theorem checkFlags_none_inv (f : Flags) (h : checkFlags f = none) :
    f.snowflakeAccount ≠ "" ∧ f.snowflakeUser ≠ "" ∧ authMethodCount f = 1 ∧
      (f.snowflakeProtocol = "https" ∨ f.snowflakeProtocol = "http") := by
  by_cases ha : f.snowflakeAccount = "" <;>
  by_cases hu : f.snowflakeUser = "" <;>
  by_cases hhs : f.snowflakeProtocol = "https" <;>
  by_cases hht : f.snowflakeProtocol = "http" <;>
  simp only [checkFlags, missingFlags, ha, hu, hhs, hht, if_true, if_false] at h ⊢ <;>
  split_ifs at h with h1 h2 <;>
  simp_all <;> omega

/-- Helper: with exactly one authentication input set and a password present,
the key file and authenticator inputs are empty. -/
theorem password_only (f : Flags) (h1 : authMethodCount f = 1)
    (hpw : f.snowflakePassword ≠ "") :
    f.snowflakePrivateKeyFile = "" ∧ f.snowflakeAuthenticator = "" := by
  by_cases hk : f.snowflakePrivateKeyFile = "" <;>
  by_cases hau : f.snowflakeAuthenticator = "" <;>
  simp [authMethodCount, hpw, hk, hau] at h1 <;> tauto

/-- Helper: with exactly one authentication input set and a key file present,
the password and authenticator inputs are empty. -/
theorem keyfile_only (f : Flags) (h1 : authMethodCount f = 1)
    (hkf : f.snowflakePrivateKeyFile ≠ "") :
    f.snowflakePassword = "" ∧ f.snowflakeAuthenticator = "" := by
  by_cases hp : f.snowflakePassword = "" <;>
  by_cases hau : f.snowflakeAuthenticator = "" <;>
  simp [authMethodCount, hp, hkf, hau] at h1 <;> tauto

/-- Configuration whose only authentication input is an authenticator name
that no selection branch recognizes. -/
def invalidAuthFlags : Flags :=
  { snowflakeAccount := "a", snowflakeUser := "u", snowflakeAuthenticator := "foo" }

/-- C2 counterexample: a configuration whose only authentication input is the
authenticator name foo passes credential validation, yet the
authenticator-selection branch recognizes no variant and exits fatally with an
invalid-authenticator error, so a validated configuration can reach a state
with no recognized authenticator. -/
theorem validated_config_with_no_variant :
    checkFlags invalidAuthFlags = none ∧
    (setupConnection (fun _ _ => Except.ok PemKey.otherKey) invalidAuthFlags).1 =
      Except.error (.authError (.invalidAuthenticator "foo")) := by
  exact ⟨rfl, rfl⟩

/-- C2 amended: for every configuration that passes credential validation and
any key-loading result, the authenticator-selection branch either selects one
of exactly three variants — password (snowflake authenticator plus the
password), key file (JWT authenticator plus the key material), or
browser-delegated (external-browser authenticator, selected exactly when the
one authentication input is the authenticator name externalbrowser) — or, when
the single authentication input is an authenticator name other than
externalbrowser, exits fatally with an invalid-authenticator error before any
variant is selected. -/
theorem validated_auth_selection (f : Flags) (rsaKey : Option RsaPrivateKey)
    (h : checkFlags f = none) :
    (f.snowflakePassword ≠ "" ∧
      applyAuth f rsaKey (baseConfig f) =
        .ok { baseConfig f with
              authenticator := some .snowflake
              password := f.snowflakePassword }) ∨
    (f.snowflakePrivateKeyFile ≠ "" ∧
      applyAuth f rsaKey (baseConfig f) =
        .ok { baseConfig f with
              authenticator := some .jwt
              privateKey := rsaKey }) ∨
    (f.snowflakePassword = "" ∧ f.snowflakePrivateKeyFile = "" ∧
      f.snowflakeAuthenticator = "externalbrowser" ∧
      applyAuth f rsaKey (baseConfig f) =
        .ok { baseConfig f with authenticator := some .externalBrowser }) ∨
    (f.snowflakePassword = "" ∧ f.snowflakePrivateKeyFile = "" ∧
      f.snowflakeAuthenticator ≠ "" ∧ f.snowflakeAuthenticator ≠ "externalbrowser" ∧
      applyAuth f rsaKey (baseConfig f) =
        .error (.invalidAuthenticator f.snowflakeAuthenticator)) := by
  obtain ⟨-, -, hcount, -⟩ := checkFlags_none_inv f h
  by_cases hp : f.snowflakePassword = ""
  · by_cases hk : f.snowflakePrivateKeyFile = ""
    · by_cases hext : f.snowflakeAuthenticator = "externalbrowser"
      · exact Or.inr (Or.inr (Or.inl ⟨hp, hk, hext, by simp [applyAuth, hp, hk, hext]⟩))
      · have hau : f.snowflakeAuthenticator ≠ "" := by
          by_cases hau : f.snowflakeAuthenticator = "" <;>
            simp [authMethodCount, hp, hk, hau] at hcount <;> tauto
        exact Or.inr (Or.inr (Or.inr ⟨hp, hk, hau, hext,
          by simp [applyAuth, hp, hk, hext]⟩))
    · exact Or.inr (Or.inl ⟨hk, by simp [applyAuth, hp, hk]⟩)
  · exact Or.inl ⟨hp, by simp [applyAuth, hp]⟩

/-- Valid password-only configuration used as a concrete instance. -/
def passwordFlags : Flags :=
  { snowflakeAccount := "acct", snowflakeUser := "user", snowflakePassword := "pw" }

/-- C2 witness: the amended selection statement evaluated on a concrete
validated password configuration. -/
theorem validated_auth_selection_witness :
    (passwordFlags.snowflakePassword ≠ "" ∧
      applyAuth passwordFlags none (baseConfig passwordFlags) =
        .ok { baseConfig passwordFlags with
              authenticator := some .snowflake
              password := passwordFlags.snowflakePassword }) ∨
    (passwordFlags.snowflakePrivateKeyFile ≠ "" ∧
      applyAuth passwordFlags none (baseConfig passwordFlags) =
        .ok { baseConfig passwordFlags with
              authenticator := some .jwt
              privateKey := none }) ∨
    (passwordFlags.snowflakePassword = "" ∧ passwordFlags.snowflakePrivateKeyFile = "" ∧
      passwordFlags.snowflakeAuthenticator = "externalbrowser" ∧
      applyAuth passwordFlags none (baseConfig passwordFlags) =
        .ok { baseConfig passwordFlags with authenticator := some .externalBrowser }) ∨
    (passwordFlags.snowflakePassword = "" ∧ passwordFlags.snowflakePrivateKeyFile = "" ∧
      passwordFlags.snowflakeAuthenticator ≠ "" ∧
      passwordFlags.snowflakeAuthenticator ≠ "externalbrowser" ∧
      applyAuth passwordFlags none (baseConfig passwordFlags) =
        .error (.invalidAuthenticator passwordFlags.snowflakeAuthenticator)) :=
  validated_auth_selection passwordFlags none rfl

/-- C8: for every configuration that passes validation with a password set and
any PEM oracle, the setup phase performs no key-file read, selects the
password authenticator variant with the password on the connection
configuration, and the configuration carries no key material. -/
theorem password_config_skips_key_logic
    (pemRead : String → String → Except String PemKey) (f : Flags)
    (hok : checkFlags f = none) (hpw : f.snowflakePassword ≠ "") :
    setupConnection pemRead f =
      (.ok { baseConfig f with
             authenticator := some .snowflake
             password := f.snowflakePassword }, []) ∧
    (baseConfig f).privateKey = none := by
  obtain ⟨-, -, hcount, -⟩ := checkFlags_none_inv f hok
  obtain ⟨hk, -⟩ := password_only f hcount hpw
  refine ⟨?_, rfl⟩
  simp [setupConnection, hok, readPrivateKey, applyAuth, hk, hpw]

/-- C8 witness: the password-configuration statement evaluated on a concrete
validated password configuration and an arbitrary concrete PEM oracle. -/
theorem password_config_skips_key_logic_witness :
    setupConnection (fun _ _ => Except.ok PemKey.otherKey) passwordFlags =
      (.ok { baseConfig passwordFlags with
             authenticator := some .snowflake
             password := passwordFlags.snowflakePassword }, []) ∧
    (baseConfig passwordFlags).privateKey = none :=
  password_config_skips_key_logic (fun _ _ => Except.ok PemKey.otherKey) passwordFlags
    rfl (by decide)

/-- C7: for every configuration that passes validation with a key file set,
the setup outcome is decided by the PEM read. A read or decrypt failure is a
fatal key-decode error and no connection configuration is ever produced; a
decoded key that is not an RSA private key is a fatal type-assertion error and
no connection configuration is ever produced; a successful RSA decode yields
the JWT variant carrying exactly the decoded key. -/
theorem keyfile_outcomes (pemRead : String → String → Except String PemKey) (f : Flags)
    (hok : checkFlags f = none) (hkf : f.snowflakePrivateKeyFile ≠ "") :
    (∀ msg, pemRead f.snowflakePrivateKeyFile f.snowflakePrivateKeyPasscode = .error msg →
      (setupConnection pemRead f).1 = .error (.keyError (.parseFailed msg)) ∧
      ∀ cfg, (setupConnection pemRead f).1 ≠ .ok cfg) ∧
    (pemRead f.snowflakePrivateKeyFile f.snowflakePrivateKeyPasscode = .ok .otherKey →
      (setupConnection pemRead f).1 = .error (.keyError .typeAssertionFailed) ∧
      ∀ cfg, (setupConnection pemRead f).1 ≠ .ok cfg) ∧
    (∀ k, pemRead f.snowflakePrivateKeyFile f.snowflakePrivateKeyPasscode = .ok (.rsaKey k) →
      (setupConnection pemRead f).1 =
        .ok { baseConfig f with
              authenticator := some .jwt
              privateKey := some k }) := by
  obtain ⟨-, -, hcount, -⟩ := checkFlags_none_inv f hok
  obtain ⟨hp, -⟩ := keyfile_only f hcount hkf
  refine ⟨fun msg hmsg => ?_, fun hother => ?_, fun k hk => ?_⟩
  · constructor
    · simp [setupConnection, hok, readPrivateKey, hkf, hmsg]
    · intro cfg
      simp [setupConnection, hok, readPrivateKey, hkf, hmsg]
  · constructor
    · simp [setupConnection, hok, readPrivateKey, hkf, hother]
    · intro cfg
      simp [setupConnection, hok, readPrivateKey, hkf, hother]
  · simp [setupConnection, hok, readPrivateKey, applyAuth, hkf, hp, hk]

/-- Modelled from the spec: the external pemutil reader for a single stored
key encrypted under a passcode; the pemutil package is outside this
repository. The read yields the RSA key exactly when the supplied passcode
matches the stored one, and fails to decrypt otherwise. -/
def pemReadModel (storedPasscode : String) (k : RsaPrivateKey) :
    String → String → Except String PemKey :=
  fun _ passcode =>
    if passcode = storedPasscode then .ok (.rsaKey k) else .error "failed to decrypt PEM block"

/-- Valid key-file configuration used as a concrete instance, carrying the
passcode secret. -/
def keyFileFlags : Flags :=
  { snowflakeAccount := "acct"
    snowflakeUser := "user"
    snowflakePrivateKeyFile := "rsa_key.p8"
    snowflakePrivateKeyPasscode := "secret" }

/-- C7 witness: the key-file statement evaluated on a concrete validated
key-file configuration whose PEM oracle holds a key encrypted under the
matching passcode secret. -/
theorem keyfile_outcomes_witness :
    (∀ msg, pemReadModel "secret" ⟨0⟩ keyFileFlags.snowflakePrivateKeyFile
        keyFileFlags.snowflakePrivateKeyPasscode = .error msg →
      (setupConnection (pemReadModel "secret" ⟨0⟩) keyFileFlags).1 =
        .error (.keyError (.parseFailed msg)) ∧
      ∀ cfg, (setupConnection (pemReadModel "secret" ⟨0⟩) keyFileFlags).1 ≠ .ok cfg) ∧
    (pemReadModel "secret" ⟨0⟩ keyFileFlags.snowflakePrivateKeyFile
        keyFileFlags.snowflakePrivateKeyPasscode = .ok .otherKey →
      (setupConnection (pemReadModel "secret" ⟨0⟩) keyFileFlags).1 =
        .error (.keyError .typeAssertionFailed) ∧
      ∀ cfg, (setupConnection (pemReadModel "secret" ⟨0⟩) keyFileFlags).1 ≠ .ok cfg) ∧
    (∀ k, pemReadModel "secret" ⟨0⟩ keyFileFlags.snowflakePrivateKeyFile
        keyFileFlags.snowflakePrivateKeyPasscode = .ok (.rsaKey k) →
      (setupConnection (pemReadModel "secret" ⟨0⟩) keyFileFlags).1 =
        .ok { baseConfig keyFileFlags with
              authenticator := some .jwt
              privateKey := some k }) :=
  keyfile_outcomes (pemReadModel "secret" ⟨0⟩) keyFileFlags rfl (by decide)

/-- States of the cancellation listener started by signalHandlerContext:
armed while the goroutine is blocked in its select, done after either select
arm has run (the deferred signal.Stop has then removed the handler). -/
inductive SigState
  | armed
  | done
  deriving Repr, DecidableEq

/-- Events the listener races on: an interrupt delivered to the signal
channel, or natural completion of the operation cancelling the context. -/
inductive SigEvent
  | interrupt
  | complete
  deriving Repr, DecidableEq

/-- Observable actions of the listener and the platform: the warning log line
for a caught signal, the context cancellation propagated to the in-flight
query, the removal of the signal handler, and the platform default handling of
an interrupt with no handler installed (immediate process termination). -/
inductive SigAction
  | logCaughtSignal
  | cancelContext
  | stopListening
  | defaultTerminate
  deriving Repr, DecidableEq

/-- One step of the cancellation machinery, translated from
signalHandlerContext: while armed, an interrupt runs the signal arm of the
select (log, cancel, then the deferred signal.Stop), and completion runs the
context arm (just the deferred signal.Stop); either way the goroutine exits
and the machine is done. Once done the handler is removed, so an interrupt is
handled by the platform default — immediate termination, as the source comment
states — and a completion event is a no-op. -/
def sigStep : SigState → SigEvent → SigState × List SigAction
  | .armed, .interrupt => (.done, [.logCaughtSignal, .cancelContext, .stopListening])
  | .armed, .complete => (.done, [.stopListening])
  | .done, .interrupt => (.done, [.defaultTerminate])
  | .done, .complete => (.done, [])

/-- Sequence of states traversed after each event of a run, from a given
start state. -/
def sigStates (s : SigState) : List SigEvent → List SigState
  | [] => []
  | e :: es => (sigStep s e).1 :: sigStates (sigStep s e).1 es

/-- Sequence of action lists performed for each event of a run, from a given
start state. -/
def sigActions (s : SigState) : List SigEvent → List (List SigAction)
  | [] => []
  | e :: es => (sigStep s e).2 :: sigActions (sigStep s e).1 es

/-- Helper: from the done state every later state of a run is done. -/
theorem sigStates_done (events : List SigEvent) :
    ∀ s, s ∈ sigStates .done events → s = .done := by
  induction events with
  | nil => intro s hs; simp [sigStates] at hs
  | cons e es ih =>
    intro s hs
    cases e <;> simp only [sigStates, sigStep, List.mem_cons] at hs <;>
      rcases hs with h | h <;> first | exact h | exact ih s h

/-- Helper: from the done state every action list of a run is the platform
default termination (for an interrupt) or nothing (for completion). -/
theorem sigActions_done (events : List SigEvent) :
    ∀ acts, acts ∈ sigActions .done events →
      acts = [SigAction.defaultTerminate] ∨ acts = [] := by
  induction events with
  | nil => intro acts h; simp [sigActions] at h
  | cons e es ih =>
    intro acts h
    cases e <;> simp only [sigActions, sigStep, List.mem_cons] at h <;>
      rcases h with h | h <;> first | exact Or.inl h | exact Or.inr h | exact ih acts h

/-- C3: the cancellation machine moves from armed to done exactly once, on
whichever event comes first. The first event — interrupt or natural
completion — sends armed to done; an interrupt logs the caught signal,
cancels the in-flight context and removes the handler, while completion just
removes the handler; the machine is never re-armed afterwards, and every
later interrupt is handled by the platform default, terminating the process
immediately. -/
theorem signal_single_shot (e : SigEvent) (rest : List SigEvent) :
    (sigStep .armed e).1 = .done ∧
    sigStates .armed (e :: rest) = .done :: sigStates .done rest ∧
    (∀ s, s ∈ sigStates .armed (e :: rest) → s = .done) ∧
    (e = .interrupt →
      (sigStep .armed e).2 = [.logCaughtSignal, .cancelContext, .stopListening]) ∧
    (e = .complete → (sigStep .armed e).2 = [.stopListening]) ∧
    (∀ acts, acts ∈ sigActions .done rest →
      acts = [SigAction.defaultTerminate] ∨ acts = []) ∧
    (∀ es, sigActions .done (SigEvent.interrupt :: es) =
      [SigAction.defaultTerminate] :: sigActions .done es) := by
  have hstep : (sigStep .armed e).1 = .done := by cases e <;> rfl
  refine ⟨hstep, ?_, ?_, ?_, ?_, sigActions_done rest, fun es => rfl⟩
  · cases e <;> simp [sigStates, sigStep]
  · intro s hs
    cases e <;> simp only [sigStates, sigStep, List.mem_cons] at hs <;>
      rcases hs with h | h <;> first | exact h | exact sigStates_done rest s h
  · intro he; subst he; rfl
  · intro he; subst he; rfl

/-- C3 witness: the single-shot statement evaluated on the run in which an
interrupt arrives during the query and a second interrupt follows. -/
theorem signal_single_shot_witness :
    (sigStep .armed .interrupt).1 = .done ∧
    sigStates .armed [.interrupt, .interrupt] = .done :: sigStates .done [.interrupt] ∧
    (∀ s, s ∈ sigStates .armed [.interrupt, .interrupt] → s = .done) ∧
    (SigEvent.interrupt = SigEvent.interrupt →
      (sigStep .armed .interrupt).2 = [.logCaughtSignal, .cancelContext, .stopListening]) ∧
    (SigEvent.interrupt = SigEvent.complete →
      (sigStep .armed .interrupt).2 = [.stopListening]) ∧
    (∀ acts, acts ∈ sigActions .done [.interrupt] →
      acts = [SigAction.defaultTerminate] ∨ acts = []) ∧
    (∀ es, sigActions .done (SigEvent.interrupt :: es) =
      [SigAction.defaultTerminate] :: sigActions .done es) :=
  signal_single_shot .interrupt [.interrupt]

/-- White-space test applied by the CSV writer to the first character of a
field, translated from the unicode package's IsSpace: the Latin-1 white-space
characters plus the Unicode White_Space code points. -/
def goIsSpace (c : Char) : Bool :=
  c.toNat == 0x09 || c.toNat == 0x0A || c.toNat == 0x0B || c.toNat == 0x0C ||
  c.toNat == 0x0D || c.toNat == 0x20 || c.toNat == 0x85 || c.toNat == 0xA0 ||
  c.toNat == 0x1680 || (decide (0x2000 ≤ c.toNat) && decide (c.toNat ≤ 0x200A)) ||
  c.toNat == 0x2028 || c.toNat == 0x2029 || c.toNat == 0x202F || c.toNat == 0x205F ||
  c.toNat == 0x3000

/-- Byte scan of the CSV writer for characters forcing quotes with the
default comma delimiter: the delimiter, the quote character, carriage return
and line feed (each is a single byte, so the byte scan coincides with this
character scan). -/
def containsSpecialByte (field : String) : Bool :=
  field.data.any (fun c => c == ',' || c == '"' || c == '\r' || c == '\n')

/-- Quoting test of the CSV writer used by main (encoding/csv fieldNeedsQuotes
with the default comma delimiter): an empty field is never quoted; the literal
backslash-dot field is always quoted; a field containing the delimiter, the
quote character, carriage return or line feed is quoted; otherwise the field
is quoted exactly when its first character is white space. -/
def fieldNeedsQuotes (field : String) : Bool :=
  if field = "" then false
  else if field = "\\." then true
  else if containsSpecialByte field then true
  else
    match field.data with
    | [] => false
    | c :: _ => goIsSpace c

/-- Escaping applied inside a quoted field by the CSV writer with CRLF mode
off: each quote character is doubled and every other character, carriage
return and line feed included, is copied as is. -/
def escapeQuotesList : List Char → List Char
  | [] => []
  | c :: cs => if c = '"' then '"' :: '"' :: escapeQuotesList cs else c :: escapeQuotesList cs

/-- Rendering of one field by the CSV writer: quoted and escaped when the
quoting test holds, written verbatim otherwise. -/
def writeField (field : String) : String :=
  if fieldNeedsQuotes field then "\"" ++ String.mk (escapeQuotesList field.data) ++ "\""
  else field

/-- Rendering of one record by the CSV writer with CRLF mode off: the fields
joined by the comma delimiter and terminated by a line feed. -/
def writeRecord (record : List String) : String :=
  String.intercalate "," (record.map writeField) ++ "\n"

/-- Concatenation of rendered lines, in order. -/
def concatLines : List String → String
  | [] => ""
  | l :: ls => l ++ concatLines ls

/-- Quoting condition in the words of the amended specification: the field is
non-empty and contains the delimiter, the quote character, a line feed or a
carriage return, or is the literal backslash-dot, or begins with a white-space
character. -/
def quotedFieldSpec (field : String) : Prop :=
  field ≠ "" ∧
    ((∃ c, c ∈ field.data ∧ (c = ',' ∨ c = '"' ∨ c = '\n' ∨ c = '\r')) ∨
      field = "\\." ∨
      (∃ c cs, field.data = c :: cs ∧ goIsSpace c = true))

/-- C5 counterexample: the field made of a space then the letter a contains no
delimiter, no quote character and no newline, yet the CSV writer used by main
quotes it, so a field can be quoted without containing any of the three listed
characters. -/
theorem leading_space_field_quoted :
    containsSpecialByte " a" = false ∧
    writeField " a" = "\" a\"" ∧
    writeRecord [" a"] = "\" a\"\n" := by
  refine ⟨by decide, by decide, ?_⟩
  simp [writeRecord, String.intercalate]
  decide

/-- Helper: the writer's quoting test holds exactly under the quoting
condition of the amended specification. -/
theorem fieldNeedsQuotes_iff (field : String) :
    fieldNeedsQuotes field = true ↔ quotedFieldSpec field := by
  have hany : containsSpecialByte field = true ↔
      (∃ c, c ∈ field.data ∧ (c = ',' ∨ c = '"' ∨ c = '\n' ∨ c = '\r')) := by
    unfold containsSpecialByte
    rw [List.any_eq_true]
    constructor
    · rintro ⟨c, hc, hp⟩
      refine ⟨c, hc, ?_⟩
      simp only [Bool.or_eq_true, beq_iff_eq] at hp
      tauto
    · rintro ⟨c, hc, hp⟩
      refine ⟨c, hc, ?_⟩
      simp only [Bool.or_eq_true, beq_iff_eq]
      tauto
  unfold fieldNeedsQuotes quotedFieldSpec
  split_ifs with h0 hbs hsp
  · simp [h0]
  · simp only [eq_self_iff_true, true_iff]
    exact ⟨h0, Or.inr (Or.inl hbs)⟩
  · simp only [eq_self_iff_true, true_iff]
    exact ⟨h0, Or.inl (hany.mp hsp)⟩
  · constructor
    · intro hm
      rcases hd : field.data with - | ⟨c, cs⟩
      · rw [hd] at hm
        simp at hm
      · rw [hd] at hm
        exact ⟨h0, Or.inr (Or.inr ⟨c, cs, by simp [hd], by simpa using hm⟩)⟩
    · rintro ⟨-, hcase | hcase | ⟨c, cs, hd, hsp'⟩⟩
      · exact absurd (hany.mpr hcase) hsp
      · exact absurd hcase hbs
      · rw [hd]
        simpa using hsp'

/-- Generic cell values a scanned row can hold, with the cases main's
stringification meets: the SQL NULL (a nil interface value), strings,
integers and booleans. -/
inductive GoValue
  | nullValue
  | strValue (s : String)
  | intValue (n : Int)
  | boolValue (b : Bool)
  deriving Repr, DecidableEq

/-- Stringification of one cell as main performs it with the fmt package's
Sprint: a nil interface prints as the literal angle-bracketed nil text,
strings print verbatim, integers in decimal, booleans as true or false. -/
def goSprint : GoValue → String
  | .nullValue => "<nil>"
  | .strValue s => s
  | .intValue n => toString n
  | .boolValue b => if b then "true" else "false"

/-- What the environment does at one iteration of the row loop of main: the
driver delivers a row of cell values, the scan fails, the CSV write of the
current row fails, or the iteration itself fails. -/
inductive RowEvent
  | nextRow (values : List GoValue)
  | scanError (msg : String)
  | writeError (msg : String)
  | iterError (msg : String)
  deriving Repr, DecidableEq

/-- Fatal errors of the row loop, matching the fatal log sites of main: a
scan failure, a CSV row write failure, and a rows iteration failure. -/
inductive ExecError
  | scanFailed (msg : String)
  | writeRowFailed (msg : String)
  | rowsErrFailed (msg : String)
  deriving Repr, DecidableEq

/-- Error message of the database/sql Scan call when the number of
destination arguments main passes (one per column) differs from the row
width. -/
def scanArityMsg (want got : Nat) : String :=
  "sql: expected " ++ toString want ++ " destination arguments in Scan, not " ++ toString got

/-- Record-level view of the row loop of main: scanning each delivered row
into one destination per column, stringifying the cells, and stopping at the
first fatal error. Returns the string records emitted in order and the fatal
error, if any. -/
def scanRows (columns : List String) : List RowEvent → List (List String) × Option ExecError
  | [] => ([], none)
  | .nextRow vals :: rest =>
    if vals.length = columns.length then
      ((vals.map goSprint) :: (scanRows columns rest).1, (scanRows columns rest).2)
    else
      ([], some (.scanFailed (scanArityMsg columns.length vals.length)))
  | .scanError msg :: _ => ([], some (.scanFailed msg))
  | .writeError msg :: _ => ([], some (.writeRowFailed msg))
  | .iterError msg :: _ => ([], some (.rowsErrFailed msg))

/-- Output text of the row loop of main: the CSV line of each emitted record
appended in order, stopping at the first fatal error. -/
def writeLoop (columns : List String) : List RowEvent → String × Option ExecError
  | [] => ("", none)
  | .nextRow vals :: rest =>
    if vals.length = columns.length then
      (writeRecord (vals.map goSprint) ++ (writeLoop columns rest).1,
        (writeLoop columns rest).2)
    else
      ("", some (.scanFailed (scanArityMsg columns.length vals.length)))
  | .scanError msg :: _ => ("", some (.scanFailed msg))
  | .writeError msg :: _ => ("", some (.writeRowFailed msg))
  | .iterError msg :: _ => ("", some (.rowsErrFailed msg))

/-- CSV phase of main: the header row written first, then the row loop. -/
def csvPhase (columns : List String) (events : List RowEvent) : String × Option ExecError :=
  (writeRecord columns ++ (writeLoop columns events).1, (writeLoop columns events).2)

/-- Helper: the output text of the row loop is exactly the concatenation of
the CSV lines of the records of its record-level view, with the same fatal
error. -/
theorem writeLoop_eq_scanRows (columns : List String) (events : List RowEvent) :
    writeLoop columns events =
      (concatLines ((scanRows columns events).1.map writeRecord),
        (scanRows columns events).2) := by
  induction events with
  | nil => rfl
  | cons ev rest ih =>
    cases ev with
    | nextRow vals =>
      by_cases hlen : vals.length = columns.length
      · simp [writeLoop, scanRows, hlen, ih, concatLines]
      · simp [writeLoop, scanRows, hlen, concatLines]
    | scanError msg => rfl
    | writeError msg => rfl
    | iterError msg => rfl

/-- C5 amended: for every successful or partial query output, the text on
standard output is the header row of column names first, then the emitted data
rows in order, each rendered as its fields joined by the comma delimiter and
ended by a line feed; a text field is quoted exactly when it is non-empty and
contains the delimiter, the quote character, a line feed or a carriage
return, or is the literal backslash-dot, or begins with a white-space
character; every other field appears unquoted. -/
theorem csv_output_amended :
    (∀ columns events,
      (csvPhase columns events).1 =
        writeRecord columns ++ concatLines ((scanRows columns events).1.map writeRecord)) ∧
    (∀ record, writeRecord record = String.intercalate "," (record.map writeField) ++ "\n") ∧
    (∀ field, fieldNeedsQuotes field = true ↔ quotedFieldSpec field) ∧
    (∀ field, fieldNeedsQuotes field = false → writeField field = field) := by
  refine ⟨fun columns events => ?_, fun record => rfl, fieldNeedsQuotes_iff, fun field h => ?_⟩
  · simp [csvPhase, writeLoop_eq_scanRows]
  · simp [writeField, h]

/-- C9: a cell scanned as SQL NULL is stringified by the generic formatter to
the literal angle-bracketed nil text, which is non-empty and which the CSV
writer emits verbatim and unquoted — not as an empty field. -/
theorem null_cell_prints_nil (vals : List GoValue) (i : Nat) (h : i < vals.length)
    (hnull : vals.get ⟨i, h⟩ = GoValue.nullValue) :
    (vals.map goSprint).get ⟨i, by simpa using h⟩ = "<nil>" ∧
    writeField "<nil>" = "<nil>" ∧ ("<nil>" : String) ≠ "" := by
  refine ⟨?_, by decide, by decide⟩
  have h2 : (vals.map goSprint).get ⟨i, by simpa using h⟩ = goSprint (vals.get ⟨i, h⟩) := by
    simp
  rw [h2, hnull]
  rfl

/-- C9 witness: the nil-stringification statement evaluated on a concrete row
whose second cell is NULL. -/
theorem null_cell_prints_nil_witness :
    ([GoValue.strValue "x", GoValue.nullValue].map goSprint).get ⟨1, by decide⟩ = "<nil>" ∧
    writeField "<nil>" = "<nil>" ∧ ("<nil>" : String) ≠ "" :=
  null_cell_prints_nil [GoValue.strValue "x", GoValue.nullValue] 1 (by decide) (by decide)

/-- C10: every data record the row loop emits has exactly as many fields as
the header row has column names: the scan destinations and the stringified
record are both sized to the column count, and a row of any other width fails
the scan and is not emitted. -/
theorem rows_match_header_width (columns : List String) (events : List RowEvent)
    (r : List String) (hr : r ∈ (scanRows columns events).1) :
    r.length = columns.length := by
  induction events with
  | nil => simp [scanRows] at hr
  | cons ev rest ih =>
    cases ev with
    | nextRow vals =>
      by_cases hlen : vals.length = columns.length
      · simp only [scanRows, if_pos hlen, List.mem_cons] at hr
        rcases hr with h | h
        · subst h
          simp [hlen]
        · exact ih h
      · simp [scanRows, if_neg hlen] at hr
    | scanError msg => simp [scanRows] at hr
    | writeError msg => simp [scanRows] at hr
    | iterError msg => simp [scanRows] at hr

/-- C10 witness: the record-width statement evaluated on a concrete two-column
result with one emitted row. -/
theorem rows_match_header_width_witness :
    ["1", "<nil>"].length = ["A", "B"].length :=
  rows_match_header_width ["A", "B"]
    [RowEvent.nextRow [GoValue.intValue 1, GoValue.nullValue]] ["1", "<nil>"] (by decide)

/-- Fatal error caused by one row event, if any: a row of the wrong width
fails the scan; the scan, write and iteration failures are fatal as such. -/
def eventError (columns : List String) : RowEvent → Option ExecError
  | .nextRow vals =>
    if vals.length = columns.length then none
    else some (.scanFailed (scanArityMsg columns.length vals.length))
  | .scanError msg => some (.scanFailed msg)
  | .writeError msg => some (.writeRowFailed msg)
  | .iterError msg => some (.rowsErrFailed msg)

/-- C6: when a fatal error strikes the row loop after some well-formed rows,
the loop stops at once — the events after the failing one contribute nothing —
main exits non-zero with that error, and the output stream still holds the
header and every row written before the error, unsuppressed and in order. -/
theorem fatal_error_preserves_output (columns : List String)
    (good : List (List GoValue)) (ev : RowEvent) (rest : List RowEvent) (e : ExecError)
    (hgood : ∀ r, r ∈ good → r.length = columns.length)
    (herr : eventError columns ev = some e) :
    scanRows columns (good.map RowEvent.nextRow ++ ev :: rest) =
      (good.map (fun r => r.map goSprint), some e) ∧
    (csvPhase columns (good.map RowEvent.nextRow ++ ev :: rest)).1 =
      writeRecord columns ++
        concatLines ((good.map (fun r => r.map goSprint)).map writeRecord) := by
  have hscan : scanRows columns (good.map RowEvent.nextRow ++ ev :: rest) =
      (good.map (fun r => r.map goSprint), some e) := by
    induction good with
    | nil =>
      simp only [List.map_nil, List.nil_append]
      cases ev with
      | nextRow vals =>
        simp only [eventError] at herr
        split_ifs at herr with hlen
        simp only [Option.some.injEq] at herr
        simp [scanRows, hlen, herr]
      | scanError msg =>
        simp only [eventError, Option.some.injEq] at herr
        simp [scanRows, herr]
      | writeError msg =>
        simp only [eventError, Option.some.injEq] at herr
        simp [scanRows, herr]
      | iterError msg =>
        simp only [eventError, Option.some.injEq] at herr
        simp [scanRows, herr]
    | cons r rs ih =>
      have hr : r.length = columns.length := hgood r (by simp)
      have ihs : scanRows columns (rs.map RowEvent.nextRow ++ ev :: rest) =
          (rs.map (fun r => r.map goSprint), some e) :=
        ih (fun x hx => hgood x (by simp [hx]))
      simp [scanRows, hr, ihs]
  refine ⟨hscan, ?_⟩
  simp [csvPhase, writeLoop_eq_scanRows, hscan]

/-- C6 witness: the output-preservation statement evaluated on a concrete run
in which a scan failure follows one well-formed row, with a further event
after the failure. -/
theorem fatal_error_preserves_output_witness :
    scanRows ["A"] ([[GoValue.strValue "x"]].map RowEvent.nextRow ++
        RowEvent.scanError "boom" :: [RowEvent.nextRow [GoValue.strValue "y"]]) =
      ([[GoValue.strValue "x"]].map (fun r => r.map goSprint),
        some (ExecError.scanFailed "boom")) ∧
    (csvPhase ["A"] ([[GoValue.strValue "x"]].map RowEvent.nextRow ++
        RowEvent.scanError "boom" :: [RowEvent.nextRow [GoValue.strValue "y"]])).1 =
      writeRecord ["A"] ++
        concatLines (([[GoValue.strValue "x"]].map (fun r => r.map goSprint)).map
          writeRecord) :=
  fatal_error_preserves_output ["A"] [[GoValue.strValue "x"]]
    (RowEvent.scanError "boom") [RowEvent.nextRow [GoValue.strValue "y"]]
    (ExecError.scanFailed "boom") (by intro r hr; simp at hr; simp [hr]) (by decide)

/-- Query text executed by main: a constant; no flag value feeds it. -/
def query : String :=
  "SELECT current_timestamp() as TIME, current_user() as USER, current_role() as ROLE;"

/-- SQL text main passes to the driver under a given flag configuration:
always the constant query, whatever the flags hold. -/
def executedQuery (_ : Flags) : String := query

/-- Names of the flags registered by main; the flag parser rejects any other
flag name, and main exits fatally on a parse error. -/
def registeredFlagNames : List String :=
  ["snowflake.account", "snowflake.host", "snowflake.port", "snowflake.protocol",
   "snowflake.database", "snowflake.schema", "snowflake.user", "snowflake.password",
   "snowflake.role", "snowflake.private.key.file", "snowflake.private.key.passcode",
   "snowflake.authenticator", "snowflake.max.retry.count"]

/-- Flag names the repository README documents in its usage section. -/
def readmeDocumentedFlagNames : List String :=
  ["query", "snowflake.account", "snowflake.authenticator", "snowflake.database",
   "snowflake.host", "snowflake.max.retry.count", "snowflake.password", "snowflake.port",
   "snowflake.private.key.file", "snowflake.private.key.passcode", "snowflake.protocol",
   "snowflake.role", "snowflake.schema", "snowflake.user"]

/-- Default of the query flag as the README documents it. -/
def readmeQueryDefault : String :=
  "SELECT current_timestamp() as TIME, current_user() as USER, current_role() as ROLE;"

/-- C4: main registers no query flag although the README documents one — the
flag parser does not recognize the name, so an invocation passing it exits
fatally at parsing — and the SQL text main executes is the constant
introspection query for every flag configuration; that constant coincides
with the default the README documents for the missing flag. -/
theorem query_flag_missing :
    registeredFlagNames.contains "query" = false ∧
    readmeDocumentedFlagNames.contains "query" = true ∧
    readmeQueryDefault = query ∧
    ∀ f : Flags, executedQuery f = query := by
  exact ⟨by decide, by decide, rfl, fun f => rfl⟩

end Snowcat
